import Mathlib

/-!
Verification development for the camloc-server compass and display code
(`src/compass.rs`, `src/lib.rs`).

Modelling conventions:
* `f64` payloads (headings, offsets) are modelled as rationals (`ℚ`): the
  claims under study are data-flow facts (which value reaches which slot),
  not facts about IEEE-754 rounding, and the code performs a single
  subtraction `v - offset` which is modelled by rational subtraction.
* The lock-protected fields of `SharedData` (`tokio::sync::RwLock`) are
  modelled as plain record fields: each lock acquisition in the source is
  an atomic read or write of the corresponding field, and concurrent
  interleavings are modelled explicitly (`pollCycleWithSetOffset`).
* Serial-port I/O is modelled by an environment record (`CycleEnv`) that
  tells one loop iteration whether `write_all` succeeds and what
  `read_f64` returns, together with an explicit trace of device events
  (`SerialEvent`) emitted by the iteration.
* `std::time::Instant` and `std::time::Duration` in `TimedPosition` are
  modelled as rationals; `camloc_common::Position`'s `Display` and
  `Duration`'s `Debug` formatting live outside this repository and are
  passed in as rendering functions.
-/

namespace Camloc

/-- Scalar payload type standing for Rust `f64` (see module comment). -/
abbrev F64 := ℚ

/-- A device-level serial event performed by the compass poller:
a write of a byte sequence to the port, or a read of a number of bytes. -/
inductive SerialEvent where
  | write (bytes : List Nat)
  | read (numBytes : Nat)
deriving DecidableEq

/-- `compass.rs` lines 53-57: the state shared between the poll task,
`get_value`, `set_offset` and `stop`.  Each field is an `RwLock` in the
source; here each is a plain field accessed atomically. -/
structure SharedData where
  last_value : Option F64
  compass_offset : F64
  run : Bool
deriving DecidableEq

/-- `compass.rs` lines 59-63.  The `tokio::task::JoinHandle<()>` is
modelled as an opaque task identifier. -/
structure SerialCompass where
  port_name : String
  shared : SharedData
  handle : Nat
deriving DecidableEq

/-- `compass.rs` line 123: `pub const DATA_SIGNAL: [u8; 1] = [b'$'];`
(`b'$'` is byte 0x24 = 36). -/
def DATA_SIGNAL : List Nat := [36]

/-- The I/O environment of one poll-loop iteration: whether
`serial_port.write_all(&DATA_SIGNAL)` succeeds, and what
`serial_port.read_f64()` yields (`none` models `Err`, `some r` models
`Ok(r)` with `r` the decoded raw heading). -/
structure CycleEnv where
  writeOk : Bool
  readResult : Option F64
deriving DecidableEq

/-- Whether a loop iteration `break`s out of the poll loop or falls
through / `continue`s to the next scheduled tick. -/
inductive CycleFate where
  | brk
  | cont
deriving DecidableEq

/-- Result of one poll-loop iteration: the shared state afterwards, whether
the loop exits, and the serial events performed during the iteration. -/
structure CycleResult where
  state : SharedData
  fate : CycleFate
  trace : List SerialEvent
deriving DecidableEq

/-- `compass.rs` line 100: the value published from a read outcome and the
offset snapshotted at lines 96-98: `read_f64().await.ok().map(|v| v - offset)`. -/
def publishValue (offset : F64) (readResult : Option F64) : Option F64 :=
  readResult.map (fun v => v - offset)

/-- One iteration of the poll loop spawned by `SerialCompass::start`
(`compass.rs` lines 82-105): after the interval tick, read the `run` flag
and `break` if it is false; otherwise write `DATA_SIGNAL`, and on write
failure store `None` into `last_value` and `continue`; otherwise snapshot
the offset, read an 8-byte `f64`, and store the offset-corrected value
(or `None` on read failure) into `last_value`. -/
def pollCycle (s : SharedData) (env : CycleEnv) : CycleResult :=
  if s.run = false then
    { state := s, fate := CycleFate.brk, trace := [] }
  else if env.writeOk = false then
    { state := { s with last_value := none },
      fate := CycleFate.cont,
      trace := [SerialEvent.write DATA_SIGNAL] }
  else
    let offset := s.compass_offset
    let value := publishValue offset env.readResult
    { state := { s with last_value := value },
      fate := CycleFate.cont,
      trace := [SerialEvent.write DATA_SIGNAL, SerialEvent.read 8] }

/-- The poll loop run over a list of per-iteration environments: iterate
`pollCycle`, stopping as soon as an iteration `break`s.  Returns the final
shared state and the concatenated serial-event trace. -/
def pollerRun : SharedData → List CycleEnv → SharedData × List SerialEvent
  | s, [] => (s, [])
  | s, env :: rest =>
    let r := pollCycle s env
    match r.fate with
    | CycleFate.brk => (r.state, r.trace)
    | CycleFate.cont =>
      let next := pollerRun r.state rest
      (next.1, r.trace ++ next.2)

/-- `SerialCompass::start` (`compass.rs` lines 66-113): the shared state it
creates (lines 72-76: `last_value = None`, the given offset, `run = true`)
together with the port name and spawned-task handle. -/
def SerialCompass.start (compass_offset : F64) (port_name : String) (handle : Nat) :
    SerialCompass :=
  { port_name := port_name
    shared :=
      { last_value := none
        compass_offset := compass_offset
        run := true }
    handle := handle }

/-- The write `*self.shared.compass_offset.write().await = new_offset`
performed by `SerialCompass::set_offset` (`compass.rs` lines 115-117),
as a transformation of the shared state. -/
def setOffsetShared (s : SharedData) (new_offset : F64) : SharedData :=
  { s with compass_offset := new_offset }

/-- `SerialCompass::set_offset` (`compass.rs` lines 115-117). -/
def SerialCompass.set_offset (c : SerialCompass) (new_offset : F64) : SerialCompass :=
  { c with shared := setOffsetShared c.shared new_offset }

/-- `Compass::get_value` for `SerialCompass` (`compass.rs` lines 126-130):
returns `*dets.last_value.read().await`.  The second component is the list
of device (serial-port) events it performs: none. -/
def SerialCompass.get_value (c : SerialCompass) : Option F64 × List SerialEvent :=
  (c.shared.last_value, [])

/-- The flag flip `*r = false` performed by `Compass::stop` for
`SerialCompass` (`compass.rs` lines 134-136). -/
def stopSignal (s : SharedData) : SharedData :=
  { s with run := false }

/-- `Compass::stop` for `SerialCompass` (`compass.rs` lines 132-139): set
the `run` flag to false, then `self.handle.await` — the poll task runs its
remaining iterations (over the given environments) to completion before
`stop` returns.  Yields the compass with the final shared state, paired
with the serial events performed by the poller after the signal. -/
def SerialCompass.stop (c : SerialCompass) (envs : List CycleEnv) :
    SerialCompass × List SerialEvent :=
  let r := pollerRun (stopSignal c.shared) envs
  ({ c with shared := r.1 }, r.2)

/-- One poll-loop iteration interleaved with a concurrent
`set_offset new_offset`, where `pos` is the lock-acquisition point at which
the offset write lands relative to the iteration's own lock operations:
`0` = before the `run` check (line 85); `1` = after the successful write of
`DATA_SIGNAL` but before the offset snapshot (line 96); `2` or more = after
the offset snapshot (line 98), i.e. before or after the `last_value` store
(lines 102-103), which touches a different lock and so commutes with the
offset write.  Every access to `compass_offset` goes through its `RwLock`,
so the snapshot sees either the old or the new offset in full. -/
def pollCycleWithSetOffset (pos : Nat) (new_offset : F64) (s : SharedData)
    (env : CycleEnv) : CycleResult :=
  if pos = 0 then
    pollCycle (setOffsetShared s new_offset) env
  else if s.run = false then
    { state := setOffsetShared s new_offset, fate := CycleFate.brk, trace := [] }
  else if env.writeOk = false then
    { state := setOffsetShared { s with last_value := none } new_offset,
      fate := CycleFate.cont,
      trace := [SerialEvent.write DATA_SIGNAL] }
  else if pos = 1 then
    let s1 := setOffsetShared s new_offset
    { state := { s1 with last_value := publishValue s1.compass_offset env.readResult },
      fate := CycleFate.cont,
      trace := [SerialEvent.write DATA_SIGNAL, SerialEvent.read 8] }
  else
    { state :=
        setOffsetShared
          { s with last_value := publishValue s.compass_offset env.readResult }
          new_offset,
      fate := CycleFate.cont,
      trace := [SerialEvent.write DATA_SIGNAL, SerialEvent.read 8] }

/-- Byte-stream model of `tokio::io::AsyncReadExt::read_f64` as called at
`compass.rs` line 100: consume exactly the first 8 bytes of the device
response, most significant byte first (big-endian), yielding the IEEE-754
bit pattern of the raw heading together with the rest of the stream; fewer
than 8 available bytes is an error. -/
def readF64Bits : List Nat → Option (Nat × List Nat)
  | b0 :: b1 :: b2 :: b3 :: b4 :: b5 :: b6 :: b7 :: rest =>
    some (((((((b0 * 256 + b1) * 256 + b2) * 256 + b3) * 256 + b4) * 256 + b5)
        * 256 + b6) * 256 + b7, rest)
  | _ => none

/-- `no_compass!` (`compass.rs` lines 3-37) expands to
`if true { None } else { ... Some(NoCompass) }`.  `NoCompass` is the
unit-like struct declared in the dead branch. -/
structure NoCompass where
deriving DecidableEq

/-- Outcome of running a body that may be `unreachable!()`: either the
panic fires or a value is produced. -/
inductive PanicOr (α : Type) where
  | panicked
  | ok (val : α)
deriving DecidableEq

/-- `NoCompass::get_value` (`compass.rs` lines 11-17): body is
`unreachable!()`. -/
def NoCompass.get_value (_ : NoCompass) : PanicOr (Option F64) :=
  PanicOr.panicked

/-- `NoCompass::stop` (`compass.rs` lines 19-24): body is
`unreachable!()`. -/
def NoCompass.stop (_ : NoCompass) : PanicOr Unit :=
  PanicOr.panicked

/-- `NoCompass::stop_box` (`compass.rs` lines 26-31): body is
`unreachable!()`. -/
def NoCompass.stop_box (_ : NoCompass) : PanicOr Unit :=
  PanicOr.panicked

/-- The value of `no_compass!()` (`compass.rs` lines 4-36). -/
def no_compass : Option NoCompass :=
  if true then none else some {}

/-- `camloc_common::Position` (re-exported in `lib.rs` line 11):
`{x, y, rotation}`. -/
structure Position where
  x : F64
  y : F64
  rotation : F64
deriving DecidableEq

/-- `TimedPosition` (`lib.rs` lines 35-44), instants and durations as
rationals. -/
structure TimedPosition where
  position : Position
  start_time : F64
  time : F64
  extrapolated_by : Option F64
deriving DecidableEq

/-- `impl Display for TimedPosition` (`lib.rs` lines 46-57): render the
position and `t = time - start_time`; with `extrapolated_by = Some(from)`
print `[pos @ from -> t]`, otherwise `[pos @ t]`.  `showPos` renders
`Position` (its `Display` lives in `camloc_common`) and `showDur` renders a
duration (`{:.2?}` `Debug` formatting from `std`). -/
def TimedPosition.fmt (showPos : Position → String) (showDur : F64 → String)
    (tp : TimedPosition) : String :=
  let pos := showPos tp.position
  let t := showDur (tp.time - tp.start_time)
  match tp.extrapolated_by with
  | some d => "[" ++ pos ++ " @ " ++ showDur d ++ " -> " ++ t ++ "]"
  | none => "[" ++ pos ++ " @ " ++ t ++ "]"

/-- Helper: a poll iteration that starts with the `run` flag down performs
no serial I/O and exits the loop, leaving the state untouched. -/
theorem pollCycle_not_run (s : SharedData) (env : CycleEnv) (h : s.run = false) :
    pollCycle s env = { state := s, fate := CycleFate.brk, trace := [] } := by
  simp [pollCycle, h]

/-- Helper: from a state with the `run` flag down, the poll loop performs
no serial I/O and does not change the state, whatever environments follow. -/
theorem pollerRun_not_run (s : SharedData) (envs : List CycleEnv)
    (h : s.run = false) : pollerRun s envs = (s, []) := by
  cases envs with
  | nil => rfl
  | cons env rest => simp [pollerRun, pollCycle_not_run s env h]

/-- C1: in a poll cycle where the sentinel write and the 8-byte read both
succeed with raw reading `r`, the value published into `last_value` at the
end of the cycle is `r` minus the offset snapshotted during the cycle. -/
theorem C1_offset_subtracted_on_publish (s : SharedData) (env : CycleEnv) (r : F64)
    (hrun : s.run = true) (hw : env.writeOk = true) (hr : env.readResult = some r) :
    (pollCycle s env).state.last_value = some (r - s.compass_offset) := by
  simp [pollCycle, publishValue, hrun, hw, hr]

/-- Witness for C1 at a concrete cycle: raw reading 7, offset 2,
published value 5. -/
theorem C1_offset_subtracted_on_publish_witness :
    (pollCycle
      { last_value := none, compass_offset := 2, run := true }
      { writeOk := true, readResult := some 7 }).state.last_value = some 5 := by
  have h := C1_offset_subtracted_on_publish
    { last_value := none, compass_offset := 2, run := true }
    { writeOk := true, readResult := some 7 } 7 rfl rfl rfl
  rw [h]; norm_num

/-- C2: in a poll cycle where the write fails, or the write succeeds and
the read fails, `last_value` is set to `none`; the iteration performs
exactly one write attempt and at most one read attempt (no retry within
the cycle); the loop does not exit, and the poll loop proceeds to the next
scheduled iteration. -/
theorem C2_failure_invalidates_and_continues (s : SharedData) (env : CycleEnv)
    (hrun : s.run = true)
    (hfail : env.writeOk = false ∨ env.readResult = none) :
    (pollCycle s env).state.last_value = none ∧
    (pollCycle s env).fate = CycleFate.cont ∧
    ((pollCycle s env).trace = [SerialEvent.write DATA_SIGNAL] ∨
      (pollCycle s env).trace = [SerialEvent.write DATA_SIGNAL, SerialEvent.read 8]) ∧
    ∀ rest, pollerRun s (env :: rest) =
      ((pollerRun (pollCycle s env).state rest).1,
        (pollCycle s env).trace ++ (pollerRun (pollCycle s env).state rest).2) := by
  have hfate : (pollCycle s env).fate = CycleFate.cont := by
    rcases Bool.eq_false_or_eq_true env.writeOk with hw | hw <;>
      simp [pollCycle, hrun, hw]
  refine ⟨?_, hfate, ?_, ?_⟩
  · rcases hfail with hw | hr
    · simp [pollCycle, hrun, hw]
    · rcases Bool.eq_false_or_eq_true env.writeOk with hw | hw <;>
        simp [pollCycle, publishValue, hrun, hw, hr]
  · rcases Bool.eq_false_or_eq_true env.writeOk with hw | hw
    · exact Or.inr (by simp [pollCycle, hrun, hw])
    · exact Or.inl (by simp [pollCycle, hrun, hw])
  · intro rest
    simp only [pollerRun, hfate]

/-- Witness for C2 at a concrete cycle: write succeeds, read fails, and the
previously stored reading 9 is invalidated. -/
theorem C2_failure_invalidates_and_continues_witness :
    (pollCycle
      { last_value := some 9, compass_offset := 2, run := true }
      { writeOk := true, readResult := none }).state.last_value = none := by
  exact (C2_failure_invalidates_and_continues
    { last_value := some 9, compass_offset := 2, run := true }
    { writeOk := true, readResult := none } rfl (Or.inr rfl)).1

/-- C3: a concurrent `set_offset` landing at point `pos` of a poll cycle
with a successful write affects the published reading exactly when it lands
before the offset snapshot (`pos ≤ 1`): if it lands after the snapshot
(`pos ≥ 2`) the in-flight reading is published with the old offset; the
reading published is always computed from the old offset in full or the
new offset in full (never a torn value); and the stored offset afterwards
is the new one, so subsequent cycles snapshot it. -/
theorem C3_set_offset_snapshot_isolation (s : SharedData) (env : CycleEnv)
    (new_offset : F64) (pos : Nat)
    (hrun : s.run = true) (hw : env.writeOk = true) :
    (2 ≤ pos →
      (pollCycleWithSetOffset pos new_offset s env).state.last_value =
        publishValue s.compass_offset env.readResult) ∧
    (pos ≤ 1 →
      (pollCycleWithSetOffset pos new_offset s env).state.last_value =
        publishValue new_offset env.readResult) ∧
    ((pollCycleWithSetOffset pos new_offset s env).state.last_value =
        publishValue s.compass_offset env.readResult ∨
      (pollCycleWithSetOffset pos new_offset s env).state.last_value =
        publishValue new_offset env.readResult) ∧
    (pollCycleWithSetOffset pos new_offset s env).state.compass_offset =
      new_offset := by
  by_cases h0 : pos = 0
  · subst h0
    refine ⟨by omega, fun _ => ?_, Or.inr ?_, ?_⟩ <;>
      simp [pollCycleWithSetOffset, pollCycle, setOffsetShared, hrun, hw]
  · by_cases h1 : pos = 1
    · subst h1
      refine ⟨by omega, fun _ => ?_, Or.inr ?_, ?_⟩ <;>
        simp [pollCycleWithSetOffset, setOffsetShared, hrun, hw]
    · have h2 : ¬ pos = 0 ∧ ¬ pos = 1 := ⟨h0, h1⟩
      refine ⟨fun _ => ?_, fun hle => absurd hle (by omega), Or.inl ?_, ?_⟩ <;>
        simp [pollCycleWithSetOffset, setOffsetShared, hrun, hw, h0, h1]

/-- Witness for C3 at a concrete interleaving: old offset 2, raw reading 7,
a `set_offset 10` landing after the snapshot (`pos = 2`) leaves the
in-flight published value at `7 - 2 = 5` while the stored offset becomes
10. -/
theorem C3_set_offset_snapshot_isolation_witness :
    (pollCycleWithSetOffset 2 10
      { last_value := none, compass_offset := 2, run := true }
      { writeOk := true, readResult := some 7 }).state.last_value = some 5 ∧
    (pollCycleWithSetOffset 2 10
      { last_value := none, compass_offset := 2, run := true }
      { writeOk := true, readResult := some 7 }).state.compass_offset = 10 := by
  have h := C3_set_offset_snapshot_isolation
    { last_value := none, compass_offset := 2, run := true }
    { writeOk := true, readResult := some 7 } 10 2 rfl rfl
  refine ⟨?_, h.2.2.2⟩
  rw [h.1 (by norm_num)]
  simp [publishValue]
  norm_num

/-- C4: after `stop` flips the `run` flag, the poller observes the signal
at its very next loop check and exits there, before attempting any further
serial I/O: the first iteration after the signal exits the loop with an
empty trace, the serial events performed after the signal (which `stop`,
awaiting the task handle, outlives) are none, and the final state still has
the flag down. -/
theorem C4_stop_halts_poller_before_io (c : SerialCompass)
    (envs : List CycleEnv) (env : CycleEnv) :
    (c.stop envs).2 = [] ∧
    pollCycle (stopSignal c.shared) env =
      { state := stopSignal c.shared, fate := CycleFate.brk, trace := [] } ∧
    (c.stop envs).1.shared.run = false := by
  have hrun : (stopSignal c.shared).run = false := rfl
  have hloop := pollerRun_not_run (stopSignal c.shared) envs hrun
  refine ⟨?_, pollCycle_not_run _ env hrun, ?_⟩
  · simp [SerialCompass.stop, hloop]
  · simp [SerialCompass.stop, hloop, hrun]

/-- C5: a poll cycle that performs I/O (flag up, write succeeding) performs
exactly one write of the single sentinel byte 0x24 = 36 (`b'$'`) followed by
exactly one read of 8 bytes; `DATA_SIGNAL` is that one byte; and the 8
response bytes are assembled most-significant-first (big-endian) into the
64-bit pattern of the raw heading. -/
theorem C5_serial_protocol (s : SharedData) (env : CycleEnv)
    (hrun : s.run = true) (hw : env.writeOk = true) :
    (pollCycle s env).trace =
      [SerialEvent.write DATA_SIGNAL, SerialEvent.read 8] ∧
    DATA_SIGNAL = [36] ∧
    ∀ (b0 b1 b2 b3 b4 b5 b6 b7 : Nat) (rest : List Nat),
      readF64Bits (b0 :: b1 :: b2 :: b3 :: b4 :: b5 :: b6 :: b7 :: rest) =
        some (b0 * 2 ^ 56 + b1 * 2 ^ 48 + b2 * 2 ^ 40 + b3 * 2 ^ 32 +
          b4 * 2 ^ 24 + b5 * 2 ^ 16 + b6 * 2 ^ 8 + b7, rest) := by
  refine ⟨by simp [pollCycle, hrun, hw], rfl, ?_⟩
  intro b0 b1 b2 b3 b4 b5 b6 b7 rest
  simp only [readF64Bits, Option.some.injEq, Prod.mk.injEq]
  constructor
  · ring
  · trivial

/-- Witness for C5 at a concrete cycle and concrete response bytes. -/
theorem C5_serial_protocol_witness :
    (pollCycle
      { last_value := none, compass_offset := 0, run := true }
      { writeOk := true, readResult := some 1 }).trace =
        [SerialEvent.write DATA_SIGNAL, SerialEvent.read 8] ∧
    readF64Bits [64, 69, 0, 0, 0, 0, 0, 0] =
      some (64 * 2 ^ 56 + 69 * 2 ^ 48, []) := by
  have h := C5_serial_protocol
    { last_value := none, compass_offset := 0, run := true }
    { writeOk := true, readResult := some 1 } rfl rfl
  refine ⟨h.1, ?_⟩
  rw [h.2.2 64 69 0 0 0 0 0 0 []]
  norm_num

/-- Helper: starting from a state with no stored reading, if every
iteration's write or read fails then no iteration ever stores a reading. -/
theorem pollerRun_all_failed_none (envs : List CycleEnv) : ∀ s : SharedData,
    s.last_value = none →
    (∀ env ∈ envs, env.writeOk = false ∨ env.readResult = none) →
    (pollerRun s envs).1.last_value = none := by
  induction envs with
  | nil =>
    intro s hnone _
    simpa [pollerRun] using hnone
  | cons env rest ih =>
    intro s hnone hfail
    by_cases hr : s.run = false
    · simpa [pollerRun, pollCycle_not_run s env hr] using hnone
    · have hr' : s.run = true := by simpa using hr
      have hfate : (pollCycle s env).fate = CycleFate.cont := by
        rcases Bool.eq_false_or_eq_true env.writeOk with hw | hw <;>
          simp [pollCycle, hr', hw]
      have hstate : (pollCycle s env).state.last_value = none := by
        rcases hfail env (List.mem_cons_self env rest) with hw | hrd
        · simp [pollCycle, hr', hw]
        · rcases Bool.eq_false_or_eq_true env.writeOk with hw | hw <;>
            simp [pollCycle, publishValue, hr', hw, hrd]
      have hrec := ih (pollCycle s env).state hstate
        (fun e he => hfail e (List.mem_cons_of_mem env he))
      simp [pollerRun, hfate, hrec]

/-- C6: `get_value` performs no serial I/O and returns the stored last
reading as-is (never blocking on a device); right after
`SerialCompass::start` it returns `none`, and it still returns `none`
after any run of cycles in which no read completed successfully. -/
theorem C6_get_value_nonblocking (c : SerialCompass) (offset : F64)
    (port : String) (hdl : Nat) (envs : List CycleEnv)
    (hfail : ∀ env ∈ envs, env.writeOk = false ∨ env.readResult = none) :
    c.get_value.2 = [] ∧
    c.get_value.1 = c.shared.last_value ∧
    (SerialCompass.start offset port hdl).get_value.1 = none ∧
    SerialCompass.get_value
      { port_name := port
        shared := (pollerRun (SerialCompass.start offset port hdl).shared envs).1
        handle := hdl } = (none, []) := by
  refine ⟨rfl, rfl, rfl, ?_⟩
  have h := pollerRun_all_failed_none envs
    (SerialCompass.start offset port hdl).shared rfl hfail
  simp [SerialCompass.get_value, h]

/-- Witness for C6 after one cycle whose write failed. -/
theorem C6_get_value_nonblocking_witness :
    (SerialCompass.start 2 "/dev/ttyUSB0" 0).get_value.1 = none ∧
    SerialCompass.get_value
      { port_name := "/dev/ttyUSB0"
        shared := (pollerRun (SerialCompass.start 2 "/dev/ttyUSB0" 0).shared
          [{ writeOk := false, readResult := none }]).1
        handle := 0 } = (none, []) := by
  have h := C6_get_value_nonblocking
    (SerialCompass.start 2 "/dev/ttyUSB0" 0) 2 "/dev/ttyUSB0" 0
    [{ writeOk := false, readResult := none }]
    (by intro env henv; simp at henv; subst henv; exact Or.inl rfl)
  exact ⟨h.2.2.1, h.2.2.2⟩

/-- C7: the `Display` rendering of a `TimedPosition` shows the duration
`time - start_time` (the estimate's time relative to service start), and it
contains the extrapolation delta exactly when `extrapolated_by` is `Some`:
with `none` the output is `[pos @ t]` with no extrapolation marker, with
`some d` it is `[pos @ d -> t]`. -/
theorem C7_display_relative_time (showPos : Position → String)
    (showDur : F64 → String) (tp : TimedPosition) :
    (tp.extrapolated_by = none →
      TimedPosition.fmt showPos showDur tp =
        "[" ++ showPos tp.position ++ " @ " ++
          showDur (tp.time - tp.start_time) ++ "]") ∧
    (∀ d, tp.extrapolated_by = some d →
      TimedPosition.fmt showPos showDur tp =
        "[" ++ showPos tp.position ++ " @ " ++ showDur d ++ " -> " ++
          showDur (tp.time - tp.start_time) ++ "]") := by
  constructor
  · intro h
    simp [TimedPosition.fmt, h]
  · intro d h
    simp [TimedPosition.fmt, h]

/-- Witness for C7 at concrete renderers and values, one per branch. -/
theorem C7_display_relative_time_witness :
    TimedPosition.fmt (fun _ => "P") (fun _ => "T")
      { position := { x := 0, y := 0, rotation := 0 }
        start_time := 0, time := 5, extrapolated_by := none } = "[P @ T]" ∧
    TimedPosition.fmt (fun _ => "P") (fun _ => "T")
      { position := { x := 0, y := 0, rotation := 0 }
        start_time := 0, time := 5, extrapolated_by := some 1 } =
      "[P @ T -> T]" := by
  constructor
  · have h := (C7_display_relative_time (fun _ => "P") (fun _ => "T")
      { position := { x := 0, y := 0, rotation := 0 }
        start_time := 0, time := 5, extrapolated_by := none }).1 rfl
    rw [h]; rfl
  · have h := (C7_display_relative_time (fun _ => "P") (fun _ => "T")
      { position := { x := 0, y := 0, rotation := 0 }
        start_time := 0, time := 5, extrapolated_by := some 1 }).2 1 rfl
    rw [h]; rfl

/-- C8: `no_compass!()` evaluates to `None`; no `NoCompass` value is ever
produced by it, so the `unreachable!` method bodies of the dead `else`
branch can never run. -/
theorem C8_no_compass_is_none :
    no_compass = none ∧ ∀ c : NoCompass, no_compass ≠ some c := by
  refine ⟨rfl, fun c h => ?_⟩
  exact Option.noConfusion h

/-- C9: `set_offset` writes the new offset and modifies nothing else: the
stored last reading, the `run` flag, the port name and the task handle are
all preserved. -/
theorem C9_set_offset_frame (c : SerialCompass) (v : F64) :
    (c.set_offset v).shared.compass_offset = v ∧
    (c.set_offset v).shared.last_value = c.shared.last_value ∧
    (c.set_offset v).shared.run = c.shared.run ∧
    (c.set_offset v).port_name = c.port_name ∧
    (c.set_offset v).handle = c.handle :=
  ⟨rfl, rfl, rfl, rfl, rfl⟩

/-- C10: one complete poll cycle is history-independent in the stored last
reading: two starting states agreeing on the offset (and both with the
`run` flag up, so the cycle actually executes), run against the same I/O
outcomes, end with the same stored last reading — the slot is overwritten
unconditionally from this cycle's outcome and offset alone. -/
theorem C10_cycle_history_independent (s1 s2 : SharedData) (env : CycleEnv)
    (hoff : s1.compass_offset = s2.compass_offset)
    (hrun1 : s1.run = true) (hrun2 : s2.run = true) :
    (pollCycle s1 env).state.last_value = (pollCycle s2 env).state.last_value := by
  rcases Bool.eq_false_or_eq_true env.writeOk with hw | hw <;>
    simp [pollCycle, publishValue, hrun1, hrun2, hw, hoff]

/-- Witness for C10: states differing only in the stored reading
(`some 3` versus `none`) publish the same value after one successful
cycle. -/
theorem C10_cycle_history_independent_witness :
    (pollCycle { last_value := some 3, compass_offset := 1, run := true }
      { writeOk := true, readResult := some 4 }).state.last_value =
    (pollCycle { last_value := none, compass_offset := 1, run := true }
      { writeOk := true, readResult := some 4 }).state.last_value :=
  C10_cycle_history_independent
    { last_value := some 3, compass_offset := 1, run := true }
    { last_value := none, compass_offset := 1, run := true }
    { writeOk := true, readResult := some 4 } rfl rfl rfl

end Camloc
